import Mathlib

/-!
Verification development for the reconciling-edit logic of the LMS dashboard
(attendance marking and grade-cell editing). The definitions below are shallow
embeddings of the handler functions found in the React components:

* AttendanceManager.tsx  : fetchAttendance, toggleAttendanceStatus, verifyAttendance
* Login.tsx (Dashboard)  : fetchAttendance, toggleAttendanceStatus, verifyAttendance,
                           fetchGrades, updateGrade
* GradesManager.tsx and the refined grades component (src/unnamed/part_001) :
                           fetchGrades, updateGrade, createGrade, the grade-cell
                           onChange and onBlur handlers

Network effects are modelled by oracle parameters (a Bool for the success of a
write, an Option payload for the result of a fetch) and by counting the writes
a handler issues. Component state updates become explicit state-passing.
-/

/-! ## Attendance: data model -/

/-- One row of the attendance table, as fetched from the API. Identity-only
fields that no handler reads or writes (name, email, student_student_id)
are omitted; the object spreads in the source preserve them unchanged. -/
structure AttendanceRow where
  student_id : Nat
  status : String
  record_id : Option Nat
deriving DecidableEq

/-- Component state of the attendance view: the in-memory collection, the
per-scope verification flag, and the error message state. -/
structure AttState where
  attendance : List AttendanceRow
  isVerified : Bool
  error : Option String
deriving DecidableEq

/-- JavaScript truthiness of an optional numeric id: the source tests
"row.record_id" directly, which is false for undefined and for the number 0. -/
def idTruthy : Option Nat → Bool
  | some n => n != 0
  | none => false

/-! ## Attendance: status cycle

Both toggle handlers declare
"const statusCycle = ['present', 'absent', 'tardy', 'excused'];"
and compute
"const nextIndex = currentIndex === -1 ? 0 : (currentIndex + 1) % statusCycle.length;".
-/

/-- The status cycle array of the source. It has four elements; there is no
"unset" step. -/
def statusCycle : List String := ["present", "absent", "tardy", "excused"]

/-- One application of the toggle: JavaScript indexOf returning -1 is modelled
by the none case of List.indexOf?. -/
def nextStatus (status : String) : String :=
  match statusCycle.indexOf? status with
  | some i => statusCycle.getD ((i + 1) % statusCycle.length) ""
  | none => statusCycle.getD 0 ""

/-! ## Attendance: fetch handlers -/

/-- fetchAttendance of AttendanceManager.tsx. On a successful response the
scope is marked verified when some fetched row has a truthy record_id; when it
is not verified, each row keeps its fetched status unless that status is falsy
(the empty string), in which case it defaults to "present"
("status: row.status || 'present'"). On failure only the error state changes. -/
def fetchAttendanceStep (result : Option (List AttendanceRow)) (st : AttState) : AttState :=
  match result with
  | some rows =>
    if rows.any (fun r => idTruthy r.record_id) then
      { attendance := rows, isVerified := true, error := none }
    else
      { attendance := rows.map (fun r =>
          { r with status := if r.status = "" then "present" else r.status }),
        isVerified := false, error := none }
  | none => { st with error := some "Failed to fetch attendance" }

/-- fetchAttendance of the Dashboard component in Login.tsx: identical except
that in the unverified branch every row is set to "present" unconditionally
("status: 'present'"). -/
def fetchAttendanceStepLogin (result : Option (List AttendanceRow)) (st : AttState) : AttState :=
  match result with
  | some rows =>
    if rows.any (fun r => idTruthy r.record_id) then
      { attendance := rows, isVerified := true, error := none }
    else
      { attendance := rows.map (fun r => { r with status := "present" }),
        isVerified := false, error := none }
  | none => { st with error := some "Failed to fetch attendance" }

/-! ## Attendance: toggle handlers -/

/-- toggleAttendanceStatus of AttendanceManager.tsx: advances the status of
every row with the given student id one step along the cycle, inside a single
setAttendance map. It performs no network call; the returned Nat counts the
writes it issues, which is always zero. -/
def toggleAMStep (att : List AttendanceRow) (sid : Nat) : List AttendanceRow × Nat :=
  (att.map (fun r =>
      if r.student_id == sid then { r with status := nextStatus r.status } else r), 0)

/-- toggleAttendanceStatus of the Dashboard in Login.tsx. It looks up the row,
advances its status locally, and, only when the scope is already verified,
issues one POST; if that write fails it reverts the row to its previous status.
The catch block only logs to the console: the component error state is never
written, which the middle component (always none) records. The last component
counts issued writes. -/
def toggleLoginStep (isVerified commitOk : Bool) (att : List AttendanceRow) (sid : Nat) :
    List AttendanceRow × Option String × Nat :=
  match att.find? (fun r => r.student_id == sid) with
  | none => (att, none, 0)
  | some currentRow =>
    let next := nextStatus currentRow.status
    let att1 := att.map (fun r =>
      if r.student_id == sid then { r with status := next } else r)
    if isVerified then
      if commitOk then (att1, none, 1)
      else
        (att1.map (fun r =>
          if r.student_id == sid then { r with status := currentRow.status } else r),
         none, 1)
    else (att1, none, 0)

/-- A sequence of AttendanceManager toggles, accumulating the writes issued. -/
def applyTogglesAM (att : List AttendanceRow) : List Nat → List AttendanceRow × Nat
  | [] => (att, 0)
  | sid :: rest =>
    let (att1, w) := toggleAMStep att sid
    let (att2, ws) := applyTogglesAM att1 rest
    (att2, w + ws)

/-! ## Attendance: verify handler -/

/-- verifyAttendance (identical in AttendanceManager.tsx and Login.tsx): it
posts the whole collection in one request (one write, issued unconditionally:
the function body contains no check of isVerified), and on success sets
isVerified and re-runs fetchAttendance with the refetch result; on failure it
sets the error state and leaves the rest unchanged. -/
def verifyAttendanceStep (ok : Bool) (refetchResult : Option (List AttendanceRow))
    (st : AttState) : AttState × Nat :=
  if ok then
    (fetchAttendanceStep refetchResult { st with isVerified := true }, 1)
  else
    ({ st with error := some "Failed to verify attendance" }, 1)

/-! ## Helper lemmas -/

/-- Mapping a function that fixes every element of a list is the identity. -/
theorem list_map_id_of_fixes {α : Type} (l : List α) (f : α → α)
    (h : ∀ a ∈ l, f a = a) : l.map f = l := by
  induction l with
  | nil => rfl
  | cons x xs ih =>
    simp only [List.map_cons]
    rw [h x (List.mem_cons_self x xs), ih (fun a ha => h a (List.mem_cons_of_mem x ha))]

/-- The toggle never yields "unset": its result is always an element of the
four-element cycle array. -/
theorem nextStatus_ne_unset (s : String) : nextStatus s ≠ "unset" := by
  unfold nextStatus
  cases hix : statusCycle.indexOf? s with
  | none => decide
  | some i =>
    show statusCycle.getD ((i + 1) % statusCycle.length) "" ≠ "unset"
    have hlen : statusCycle.length = 4 := rfl
    rw [hlen]
    have h4 : (i + 1) % 4 < 4 := Nat.mod_lt _ (by norm_num)
    set j := (i + 1) % 4 with hj
    interval_cases j <;> decide

/-- Claim C1 (amended): the attendance cycle of the source is the fixed
four-element order present → absent → tardy → excused → present (wrapping);
any status outside the array, in particular "unset", advances to "present";
applying the cycle four times to any of the four in-cycle statuses returns the
original status; and the cycle never produces "unset". -/
theorem c1_cycle_amended :
    nextStatus "present" = "absent"
    ∧ nextStatus "absent" = "tardy"
    ∧ nextStatus "tardy" = "excused"
    ∧ nextStatus "excused" = "present"
    ∧ nextStatus "unset" = "present"
    ∧ nextStatus^[4] "present" = "present"
    ∧ nextStatus^[4] "absent" = "absent"
    ∧ nextStatus^[4] "tardy" = "tardy"
    ∧ nextStatus^[4] "excused" = "excused"
    ∧ ∀ s : String, nextStatus s ≠ "unset" :=
  ⟨by decide, by decide, by decide, by decide, by decide,
   by decide, by decide, by decide, by decide, nextStatus_ne_unset⟩

/-- Claim C1 counterexample: the claimed five-element cycle
present → absent → tardy → excused → unset → present does not match the code:
a single application sends "excused" to "present", not to "unset", and five
applications starting at "present" land on "absent", not back at "present". -/
theorem c1_cycle_cex :
    nextStatus "excused" ≠ "unset" ∧ nextStatus^[5] "present" ≠ "present" := by
  decide

/-! ## Grades: data model -/

/-- One grade object as held in the nested student → assignment map. Only the
fields the reconciliation logic reads or writes are modelled: the persisted id
and the earned points. JavaScript numbers are modelled as rationals. -/
structure Grade where
  id : Option Nat
  points_earned : Option ℚ
deriving DecidableEq

/-- One row of the grades table: a student id and the per-assignment grade
map, modelled as an association list from assignment id to grade, matching the
JavaScript object. -/
structure StudentRow where
  id : Nat
  grades : List (Nat × Grade)
deriving DecidableEq

/-- The students array of a GradesResponse, which is the part of the payload
the handlers mutate. -/
abbrev GradesData := List StudentRow

/-- Component state of the refined grades view (src/unnamed/part_001):
the local collection, the deep-copied authoritative snapshot
(originalGradesRef), and the error message state. -/
structure GradesState where
  gradesData : Option GradesData
  originalRef : Option GradesData
  error : Option String
deriving DecidableEq

/-- Object-spread assignment grades[aid] := g on the association list:
an existing key is replaced in place, a new key is appended. -/
def setGradeEntry (gs : List (Nat × Grade)) (aid : Nat) (g : Grade) : List (Nat × Grade) :=
  if gs.any (fun e => e.1 == aid) then
    gs.map (fun e => if e.1 == aid then (aid, g) else e)
  else gs ++ [(aid, g)]

/-- Lookup student.grades[assignment.id]. -/
def lookupGrade (gs : List (Nat × Grade)) (aid : Nat) : Option Grade :=
  (gs.find? (fun e => e.1 == aid)).map (·.2)

/-! ## Grades: fetch handler -/

/-- fetchGrades of src/unnamed/part_001. On success it replaces the local
collection and stores a deep copy of the same payload as the authoritative
snapshot (JSON round-trip, the identity here) and clears the error; on failure
it sets the error and clears both the collection and the snapshot to null. -/
def fetchGradesStep (result : Option GradesData) (_st : GradesState) : GradesState :=
  match result with
  | some d => { gradesData := some d, originalRef := some d, error := none }
  | none =>
    { gradesData := none, originalRef := none, error := some "Failed to fetch grades" }

/-! ## Grades: commit handlers -/

/-- The optimistic local update inside updateGrade: every grade entry whose id
equals the committed grade id gets the new points value. -/
def optimisticSet (d : GradesData) (gid : Nat) (pts : Option ℚ) : GradesData :=
  d.map (fun s =>
    { s with grades := s.grades.map (fun e =>
        if e.2.id == some gid then (e.1, { e.2 with points_earned := pts }) else e) })

/-- updateGrade of src/unnamed/part_001 (GradesManager.tsx is the same except
that it keeps no snapshot): apply the optimistic local update, issue one PUT;
on success clear the error; on failure set the error and then revert by
re-running fetchGrades, whose own result is the second oracle argument. The
Nat counts issued writes (the PUT; the revert refetch is a read). -/
def updateGradeStep (ok : Bool) (refetchResult : Option GradesData) (gid : Nat)
    (pts : Option ℚ) (st : GradesState) : GradesState × Nat :=
  let st1 := { st with gradesData := st.gradesData.map (fun d => optimisticSet d gid pts) }
  if ok then ({ st1 with error := none }, 1)
  else (fetchGradesStep refetchResult { st1 with error := some "Failed to update grade" }, 1)

/-- createGrade of src/unnamed/part_001: issue one POST; on success store the
grade object returned by the server (including its new persisted id) at the
(student, assignment) cell and clear the error; on failure set the error and
revert by re-running fetchGrades. -/
def createGradeStep (ok : Bool) (newGrade : Grade) (refetchResult : Option GradesData)
    (studentId aid : Nat) (st : GradesState) : GradesState × Nat :=
  if ok then
    ({ st with
        gradesData := st.gradesData.map (fun d => d.map (fun s =>
          if s.id == studentId then { s with grades := setGradeEntry s.grades aid newGrade }
          else s)),
        error := none }, 1)
  else (fetchGradesStep refetchResult { st with error := some "Failed to create grade" }, 1)

/-! ## Grades: cell editing handlers -/

/-- The onChange handler of the grade input in src/unnamed/part_001: it writes
the raw parsed value into the local cell (an empty field becomes undefined)
and touches nothing else; it has no network call. A cell edited before ever
being graded gets a grade object without id. -/
def gradeOnChange (d : GradesData) (studentId aid : Nat) (raw : Option ℚ) : GradesData :=
  d.map (fun s =>
    if s.id == studentId then
      let newGrade : Grade :=
        match lookupGrade s.grades aid with
        | some g => { g with points_earned := raw }
        | none => { id := none, points_earned := raw }
      { s with grades := setGradeEntry s.grades aid newGrade }
    else s)

/-- The onChange handler at state level: gradesData is only touched when it is
non-null; originalGradesRef and error are untouched; zero writes issued. -/
def gradesOnChangeStep (st : GradesState) (studentId aid : Nat) (raw : Option ℚ) :
    GradesState × Nat :=
  ({ st with gradesData := st.gradesData.map (fun d => gradeOnChange d studentId aid raw) }, 0)

/-- A sequence of onChange edits (studentId, assignmentId, raw value),
accumulating the writes issued. -/
def applyGradeEdits (st : GradesState) : List (Nat × Nat × Option ℚ) → GradesState × Nat
  | [] => (st, 0)
  | e :: rest =>
    let (st1, w) := gradesOnChangeStep st e.1 e.2.1 e.2.2
    let (st2, ws) := applyGradeEdits st1 rest
    (st2, w + ws)

/-- Math.round of JavaScript: round half toward positive infinity. -/
def jsRound (q : ℚ) : ℤ := ⌊q + 1 / 2⌋

/-- The decision the onBlur handler of the grade input takes: do nothing,
reject an out-of-range value (writing the snapshot text back into the input
element, with no state change and no network call), or issue exactly one
update or create call. -/
inductive BlurAction where
  | noop : BlurAction
  | rejectRevert : BlurAction
  | update : Nat → Option ℤ → BlurAction
  | create : Option ℤ → BlurAction
deriving DecidableEq

/-- How many network writes a blur decision issues. -/
def actionWrites : BlurAction → Nat
  | .update _ _ => 1
  | .create _ => 1
  | _ => 0

/-- The local const numValue of the blur handler: the parsed input (none for
the empty string or NaN) passed through Math.round. -/
def blurNumValue (raw : Option ℚ) : Option ℤ := raw.map jsRound

/-- The range test of the blur handler:
"numValue !== null && (numValue < 0 || numValue > 100)". The bound is the
fixed constant 100; the per-assignment max_points is not consulted. -/
def blurOutOfRange : Option ℤ → Bool
  | some n => decide (n < 0) || decide (100 < n)
  | none => false

/-- The local const originalValue of the blur handler:
"originalPoints ? Math.round(originalPoints) : null". The JavaScript
truthiness test maps a snapshot value of 0 (and an absent one) to null. -/
def blurOriginalValue : Option ℚ → Option ℤ
  | some p => if p = 0 then none else some (jsRound p)
  | none => none

/-- The onBlur handler of the grade input in src/unnamed/part_001.
raw is the parsed input, originalPoints the snapshot value from
originalGradesRef, gradeId the persisted id of the cell. Out-of-range values
are rejected (the snapshot text is written back into the input element, with
no state change and no network call); otherwise, on a detected change, the
handler dispatches on the persisted id: update when present, create
otherwise. -/
def gradeOnBlur (raw originalPoints : Option ℚ) (gradeId : Option Nat) : BlurAction :=
  if blurOutOfRange (blurNumValue raw) then BlurAction.rejectRevert
  else if blurNumValue raw ≠ blurOriginalValue originalPoints then
    match gradeId with
    | some gid => BlurAction.update gid (blurNumValue raw)
    | none => BlurAction.create (blurNumValue raw)
  else BlurAction.noop

/-- jsRound at the rational 0 is the integer 0. -/
theorem jsRound_zero : jsRound 0 = 0 := by rw [jsRound]; norm_num

/-- Claim C3 (code bug): a grade cell whose snapshot value is 0, re-entered
unchanged on blur, issues an update call instead of the zero network calls the
claim (and the surrounding change-detection intent of the code) requires: the
truthiness test treats the snapshot score 0 as absent. -/
theorem c3_zero_resubmit_bug :
    gradeOnBlur (some 0) (some 0) (some 5) = BlurAction.update 5 (some 0)
    ∧ actionWrites (gradeOnBlur (some 0) (some 0) (some 5)) = 1 := by
  have h : gradeOnBlur (some 0) (some 0) (some 5) = BlurAction.update 5 (some 0) := by
    simp [gradeOnBlur, blurNumValue, blurOutOfRange, blurOriginalValue, jsRound_zero]
  exact ⟨h, by rw [h]; rfl⟩

/-- Claim C4 (code bug): a persisted cell whose snapshot value is 0, cleared
to empty and blurred, is dirty (its value changes from 0 to absent) yet the
handler issues no call at all — the truthiness test maps the snapshot 0 to
null, which compares equal to the cleared input, so the required single update
call never happens. -/
theorem c4_zero_clear_bug :
    gradeOnBlur none (some 0) (some 7) = BlurAction.noop
    ∧ actionWrites (gradeOnBlur none (some 0) (some 7)) = 0 := by
  have h : gradeOnBlur none (some 0) (some 7) = BlurAction.noop := by
    simp [gradeOnBlur, blurNumValue, blurOutOfRange, blurOriginalValue]
  exact ⟨h, by rw [h]; rfl⟩

/-- Dispatch behaviour of the blur handler on inputs its change detection
accepts: in range and different from the snapshot comparison value, the
handler issues exactly one call, an update precisely when the cell has a
persisted id and a create otherwise. -/
theorem gradeOnBlur_dispatch (raw originalPoints : Option ℚ) (gid : Nat)
    (h1 : blurOutOfRange (blurNumValue raw) = false)
    (h2 : blurNumValue raw ≠ blurOriginalValue originalPoints) :
    gradeOnBlur raw originalPoints (some gid) = BlurAction.update gid (blurNumValue raw)
    ∧ gradeOnBlur raw originalPoints none = BlurAction.create (blurNumValue raw) := by
  unfold gradeOnBlur
  rw [h1]
  simp [h2]

/-- Claim C5 (amended): for every grade cell and every numeric raw input whose
rounded value lies outside the fixed interval 0..100 — the handler validates
against the constant 100, not the per-assignment maxPoints — the blur handler
rejects the input: it resets the displayed input text to the snapshot value,
performs no state mutation, and issues no network call. -/
theorem c5_bounds_amended (q : ℚ) (op : Option ℚ) (gid : Option Nat)
    (h : jsRound q < 0 ∨ 100 < jsRound q) :
    gradeOnBlur (some q) op gid = BlurAction.rejectRevert
    ∧ actionWrites (gradeOnBlur (some q) op gid) = 0 := by
  have hb : blurOutOfRange (blurNumValue (some q)) = true := by
    show blurOutOfRange (some (jsRound q)) = true
    simp only [blurOutOfRange, Bool.or_eq_true, decide_eq_true_eq]
    exact h
  have hmain : gradeOnBlur (some q) op gid = BlurAction.rejectRevert := by
    unfold gradeOnBlur
    rw [hb]
    rfl
  exact ⟨hmain, by rw [hmain]; rfl⟩

/-- Witness for C5 at the concrete input 150 on a persisted cell whose
snapshot value is 10: the blur handler rejects and issues no call. -/
theorem c5_bounds_witness :
    gradeOnBlur (some 150) (some 10) (some 1) = BlurAction.rejectRevert
    ∧ actionWrites (gradeOnBlur (some 150) (some 10) (some 1)) = 0 :=
  c5_bounds_amended 150 (some 10) (some 1) (Or.inr (by rw [jsRound]; norm_num))

/-- Claim C5 counterexample: for an assignment with maxPoints 50, the input
75 lies outside the claimed interval 0..maxPoints, yet the handler — which
only checks the constant bound 100 — detects a change against the snapshot
value 10 and issues an update call, mutating the local value, instead of
rejecting the input with no network call. -/
theorem c5_bounds_cex :
    ¬ ((0 : ℚ) ≤ 75 ∧ (75 : ℚ) ≤ 50)
    ∧ gradeOnBlur (some 75) (some 10) (some 1) = BlurAction.update 1 (some 75)
    ∧ actionWrites (gradeOnBlur (some 75) (some 10) (some 1)) = 1 := by
  have h75 : jsRound 75 = 75 := by rw [jsRound]; norm_num
  have h10 : jsRound 10 = 10 := by rw [jsRound]; norm_num
  have hmain : gradeOnBlur (some 75) (some 10) (some 1) = BlurAction.update 1 (some 75) := by
    simp [gradeOnBlur, blurNumValue, blurOutOfRange, blurOriginalValue, h75, h10]
  exact ⟨by norm_num, hmain, by rw [hmain]; rfl⟩

/-- Claim C2 (amended): when a commit of a record fails, the display fully
reverts to the last authoritative value: the attendance auto-save restores the
pre-toggle status, and a failed grade update sets the error and then reverts
by refetching, after which the local collection and the snapshot are both the
freshly fetched authoritative data — but that successful revert refetch also
clears the error state again, and the attendance auto-save never writes the
error state at all, so the failure is not always surfaced. -/
theorem c2_commit_revert_amended (att : List AttendanceRow) (sid : Nat)
    (h : ∀ r1 ∈ att, ∀ r2 ∈ att, r1.student_id = r2.student_id → r1.status = r2.status)
    (st : GradesState) (gid : Nat) (pts : Option ℚ) (server : GradesData) :
    (toggleLoginStep true false att sid).1 = att
    ∧ (toggleLoginStep true false att sid).2.1 = none
    ∧ (updateGradeStep false (some server) gid pts st).1.gradesData = some server
    ∧ (updateGradeStep false (some server) gid pts st).1.originalRef = some server
    ∧ (updateGradeStep false (some server) gid pts st).1.error = none := by
  refine ⟨?_, ?_, rfl, rfl, rfl⟩
  · unfold toggleLoginStep
    cases hfind : att.find? (fun r => r.student_id == sid) with
    | none => rfl
    | some cur =>
      have hcmem : cur ∈ att := List.mem_of_find?_eq_some hfind
      have hcsid : cur.student_id = sid := by
        simpa using List.find?_some hfind
      show ((att.map fun r =>
          if r.student_id == sid then { r with status := nextStatus cur.status } else r).map
            fun r => if r.student_id == sid then { r with status := cur.status } else r) = att
      rw [List.map_map]
      apply list_map_id_of_fixes
      intro r hr
      obtain ⟨ra, rb, rc⟩ := r
      by_cases hm : (ra == sid) = true
      · have hra : ra = sid := by simpa using hm
        have hrb : rb = cur.status :=
          h ⟨ra, rb, rc⟩ hr cur hcmem (by show ra = cur.student_id; rw [hra, hcsid])
        simp [Function.comp, hm, hrb]
      · simp [Function.comp, hm]
  · unfold toggleLoginStep
    cases hfind : att.find? (fun r => r.student_id == sid) with
    | none => rfl
    | some cur => rfl

/-- Witness for C2 at a concrete failing commit: one student marked present,
auto-save fails, the row is restored and no error is set; a failed grade
update followed by the revert refetch leaves collection and snapshot equal to
the server data with a clear error state. -/
theorem c2_commit_revert_witness :
    (toggleLoginStep true false [⟨1, "present", some 3⟩] 1).1 = [⟨1, "present", some 3⟩]
    ∧ (toggleLoginStep true false [⟨1, "present", some 3⟩] 1).2.1 = none
    ∧ (updateGradeStep false (some []) 2 (some 85) ⟨none, none, none⟩).1.gradesData = some []
    ∧ (updateGradeStep false (some []) 2 (some 85) ⟨none, none, none⟩).1.originalRef = some []
    ∧ (updateGradeStep false (some []) 2 (some 85) ⟨none, none, none⟩).1.error = none :=
  c2_commit_revert_amended [⟨1, "present", some 3⟩] 1 (by decide) ⟨none, none, none⟩ 2
    (some 85) []

/-- Claim C2 counterexample: in the attendance auto-save of Login.tsx a failed
commit reverts the row but surfaces no error at all — the catch block only
logs to the console, so the write to the component error state (the middle
component of the result) is none, against the claim that the error is
surfaced to the caller. -/
theorem c2_commit_error_cex :
    toggleLoginStep true false [⟨2, "tardy", some 9⟩] 2
      = ([⟨2, "tardy", some 9⟩], none, 1) := by
  decide

/-- The verification flag after a successful attendance load equals the
truthy-some test over the fetched record ids. -/
theorem fetchAtt_isVerified_eq_any (rows : List AttendanceRow) (st : AttState) :
    (fetchAttendanceStep (some rows) st).isVerified
      = rows.any (fun r => idTruthy r.record_id)
    ∧ (fetchAttendanceStepLogin (some rows) st).isVerified
      = rows.any (fun r => idTruthy r.record_id) := by
  constructor
  · unfold fetchAttendanceStep
    cases h : rows.any (fun r => idTruthy r.record_id) <;> simp [h]
  · unfold fetchAttendanceStepLogin
    cases h : rows.any (fun r => idTruthy r.record_id) <;> simp [h]

/-- Under nonzero record ids, the truthy-any test agrees with the existence
of a present record id. -/
theorem any_idTruthy_iff (rows : List AttendanceRow)
    (h : ∀ r ∈ rows, r.record_id ≠ some 0) :
    rows.any (fun r => idTruthy r.record_id) = true
      ↔ ∃ r ∈ rows, r.record_id.isSome = true := by
  rw [List.any_eq_true]
  constructor
  · rintro ⟨r, hr, htr⟩
    refine ⟨r, hr, ?_⟩
    cases hrid : r.record_id with
    | none => rw [hrid] at htr; exact absurd htr (by decide)
    | some n => rfl
  · rintro ⟨r, hr, hs⟩
    refine ⟨r, hr, ?_⟩
    cases hrid : r.record_id with
    | none => rw [hrid] at hs; exact absurd hs (by decide)
    | some n =>
      have hne : n ≠ 0 := by
        intro hn
        exact h r hr (by rw [hrid, hn])
      simp [idTruthy, bne_iff_ne, hne]

/-- Claim C10 (confirmed): after a successful attendance load (in both the
AttendanceManager and the Dashboard implementation), the scope is marked
verified exactly when some fetched record carries a persisted record id (ids
being nonzero, as database ids are), so one persisted record among many marks
the whole scope verified; and in that case the fetched rows are stored as-is,
with no default fill. -/
theorem c10_verified_iff (rows : List AttendanceRow) (st : AttState)
    (h : ∀ r ∈ rows, r.record_id ≠ some 0) :
    ((fetchAttendanceStep (some rows) st).isVerified = true
      ↔ ∃ r ∈ rows, r.record_id.isSome = true)
    ∧ ((∃ r ∈ rows, r.record_id.isSome = true) →
        (fetchAttendanceStep (some rows) st).attendance = rows)
    ∧ ((fetchAttendanceStepLogin (some rows) st).isVerified = true
      ↔ ∃ r ∈ rows, r.record_id.isSome = true)
    ∧ ((∃ r ∈ rows, r.record_id.isSome = true) →
        (fetchAttendanceStepLogin (some rows) st).attendance = rows) := by
  obtain ⟨e1, e2⟩ := fetchAtt_isVerified_eq_any rows st
  have hiff := any_idTruthy_iff rows h
  refine ⟨by rw [e1]; exact hiff, ?_, by rw [e2]; exact hiff, ?_⟩
  · intro hex
    have hany : rows.any (fun r => idTruthy r.record_id) = true := hiff.mpr hex
    simp [fetchAttendanceStep, hany]
  · intro hex
    have hany : rows.any (fun r => idTruthy r.record_id) = true := hiff.mpr hex
    simp [fetchAttendanceStepLogin, hany]

/-- Witness for C10: of two fetched rows only the first carries a persisted
id; the load marks the scope verified and stores the rows unchanged. -/
theorem c10_verified_iff_witness :
    ((fetchAttendanceStep (some [⟨1, "tardy", some 5⟩, ⟨2, "", none⟩])
        ⟨[], false, none⟩).isVerified = true
      ↔ ∃ r ∈ [(⟨1, "tardy", some 5⟩ : AttendanceRow), ⟨2, "", none⟩],
          r.record_id.isSome = true)
    ∧ ((∃ r ∈ [(⟨1, "tardy", some 5⟩ : AttendanceRow), ⟨2, "", none⟩],
          r.record_id.isSome = true) →
        (fetchAttendanceStep (some [⟨1, "tardy", some 5⟩, ⟨2, "", none⟩])
          ⟨[], false, none⟩).attendance = [⟨1, "tardy", some 5⟩, ⟨2, "", none⟩])
    ∧ ((fetchAttendanceStepLogin (some [⟨1, "tardy", some 5⟩, ⟨2, "", none⟩])
        ⟨[], false, none⟩).isVerified = true
      ↔ ∃ r ∈ [(⟨1, "tardy", some 5⟩ : AttendanceRow), ⟨2, "", none⟩],
          r.record_id.isSome = true)
    ∧ ((∃ r ∈ [(⟨1, "tardy", some 5⟩ : AttendanceRow), ⟨2, "", none⟩],
          r.record_id.isSome = true) →
        (fetchAttendanceStepLogin (some [⟨1, "tardy", some 5⟩, ⟨2, "", none⟩])
          ⟨[], false, none⟩).attendance = [⟨1, "tardy", some 5⟩, ⟨2, "", none⟩]) :=
  c10_verified_iff [⟨1, "tardy", some 5⟩, ⟨2, "", none⟩] ⟨[], false, none⟩ (by decide)

/-- Claim C7 (amended): a failed attendance load leaves the previous
collection and verification state untouched and surfaces the error; a failed
grades load surfaces the error but clears the in-memory collection and the
snapshot to null rather than leaving them unchanged. -/
theorem c7_load_failure_amended (stA : AttState) (stG : GradesState) :
    (fetchAttendanceStep none stA).attendance = stA.attendance
    ∧ (fetchAttendanceStep none stA).isVerified = stA.isVerified
    ∧ (fetchAttendanceStep none stA).error = some "Failed to fetch attendance"
    ∧ (fetchGradesStep none stG).gradesData = none
    ∧ (fetchGradesStep none stG).originalRef = none
    ∧ (fetchGradesStep none stG).error = some "Failed to fetch grades" :=
  ⟨rfl, rfl, rfl, rfl, rfl, rfl⟩

/-- Claim C7 counterexample: a grades load failure does not leave the
previously held collection unchanged: a state holding one student is replaced
by a null collection. -/
theorem c7_load_failure_cex :
    (fetchGradesStep none ⟨some [⟨1, []⟩], some [⟨1, []⟩], none⟩).gradesData
      ≠ (⟨some [⟨1, []⟩], some [⟨1, []⟩], none⟩ : GradesState).gradesData := by
  simp [fetchGradesStep]

/-- Claim C8 (amended): the verify operation contains no internal guard on
the verification state: it always issues exactly one bulk write, whatever the
verified flag and the outcome, and its behaviour on a successful write is
identical whatever verified flag the state held — only the disabled button in
the UI prevents re-verification. -/
theorem c8_verify_unguarded_amended (ok : Bool)
    (refetchResult : Option (List AttendanceRow)) (st : AttState) (v1 v2 : Bool) :
    (verifyAttendanceStep ok refetchResult st).2 = 1
    ∧ verifyAttendanceStep true refetchResult { st with isVerified := v1 }
        = verifyAttendanceStep true refetchResult { st with isVerified := v2 } := by
  constructor
  · cases ok <;> rfl
  · rfl

/-- Claim C8 counterexample: calling verify on a scope already verified still
issues one network write, against the claimed guarded no-op. -/
theorem c8_verify_guard_cex :
    (verifyAttendanceStep true (some [⟨1, "present", some 2⟩])
      ⟨[⟨1, "present", some 2⟩], true, none⟩).2 = 1 := by
  rfl

/-- Claim C9 (amended): purely local mutations issue no network writes and
leave the snapshot untouched: any sequence of grade-cell onChange edits keeps
originalGradesRef unchanged with zero writes, any sequence of
AttendanceManager cycles issues zero writes, and the Dashboard cycle issues
zero writes while the scope is unverified — but once the scope is verified
the Dashboard cycle auto-saves (see the counterexample). -/
theorem c9_local_mutation_amended :
    (∀ (st : GradesState) (es : List (Nat × Nat × Option ℚ)),
        (applyGradeEdits st es).1.originalRef = st.originalRef
        ∧ (applyGradeEdits st es).2 = 0)
    ∧ (∀ (att : List AttendanceRow) (sids : List Nat), (applyTogglesAM att sids).2 = 0)
    ∧ (∀ (att : List AttendanceRow) (sid : Nat) (commitOk : Bool),
        (toggleLoginStep false commitOk att sid).2.2 = 0) := by
  refine ⟨?_, ?_, ?_⟩
  · intro st es
    induction es generalizing st with
    | nil => exact ⟨rfl, rfl⟩
    | cons e rest ih =>
      have h := ih ({ st with
        gradesData := st.gradesData.map (fun d => gradeOnChange d e.1 e.2.1 e.2.2) })
      simpa [applyGradeEdits, gradesOnChangeStep] using h
  · intro att sids
    induction sids generalizing att with
    | nil => rfl
    | cons sid rest ih =>
      have h := ih (att.map (fun r =>
        if r.student_id == sid then { r with status := nextStatus r.status } else r))
      simpa [applyTogglesAM, toggleAMStep] using h
  · intro att sid commitOk
    unfold toggleLoginStep
    cases att.find? (fun r => r.student_id == sid) <;> rfl

/-- Claim C9 counterexample: in the Dashboard implementation, once the scope
is verified a single attendance cycle — not followed by any explicit commit —
issues a network write by itself: the cycle does commit individually. -/
theorem c9_cycle_autosave_cex :
    (toggleLoginStep true true [⟨1, "present", some 3⟩] 1).2.2 = 1 := by
  decide

/-- Claim C6 (amended): after loading a scope in which no fetched record has
a persisted id, the Dashboard implementation sets every local status to
"present"; the AttendanceManager implementation only defaults records whose
fetched status is empty, keeping any nonempty fetched status — including the
literal "unset" — as it is. The scope loads unverified, and a subsequent
successful verify marks it verified and refetches, after which every record
carries a persisted id. -/
theorem c6_default_fill_amended (rows : List AttendanceRow) (st : AttState)
    (refetchRows : List AttendanceRow) (st2 : AttState)
    (h1 : ∀ r ∈ rows, r.record_id = none)
    (h2 : ∀ r ∈ refetchRows, r.record_id.isSome = true ∧ r.record_id ≠ some 0)
    (h3 : refetchRows ≠ []) :
    (∀ r ∈ (fetchAttendanceStepLogin (some rows) st).attendance, r.status = "present")
    ∧ (fetchAttendanceStepLogin (some rows) st).isVerified = false
    ∧ (fetchAttendanceStep (some rows) st).attendance
        = rows.map (fun r =>
            { r with status := if r.status = "" then "present" else r.status })
    ∧ (verifyAttendanceStep true (some refetchRows) st2).1.isVerified = true
    ∧ (verifyAttendanceStep true (some refetchRows) st2).1.attendance = refetchRows
    ∧ (verifyAttendanceStep true (some refetchRows) st2).2 = 1
    ∧ (∀ r ∈ (verifyAttendanceStep true (some refetchRows) st2).1.attendance,
        r.record_id.isSome = true) := by
  have hany0 : rows.any (fun r => idTruthy r.record_id) = false := by
    cases hb : rows.any (fun r => idTruthy r.record_id) with
    | false => rfl
    | true =>
      exfalso
      rw [List.any_eq_true] at hb
      obtain ⟨r, hr, htr⟩ := hb
      rw [h1 r hr] at htr
      exact absurd htr (by decide)
  have hanyR : refetchRows.any (fun r => idTruthy r.record_id) = true := by
    obtain ⟨r0, hr0⟩ := List.exists_mem_of_ne_nil refetchRows h3
    rw [List.any_eq_true]
    refine ⟨r0, hr0, ?_⟩
    obtain ⟨hs, hne⟩ := h2 r0 hr0
    cases hrid : r0.record_id with
    | none => rw [hrid] at hs; exact absurd hs (by decide)
    | some n =>
      have hn : n ≠ 0 := by
        intro h0
        exact hne (by rw [hrid, h0])
      simp [idTruthy, bne_iff_ne, hn]
  refine ⟨?_, ?_, ?_, ?_, ?_, ?_, ?_⟩
  · intro r hr
    simp only [fetchAttendanceStepLogin, hany0] at hr
    simp only [Bool.false_eq_true, if_false, List.mem_map] at hr
    obtain ⟨x, hx, rfl⟩ := hr
    rfl
  · simp [fetchAttendanceStepLogin, hany0]
  · simp [fetchAttendanceStep, hany0]
  · simp [verifyAttendanceStep, fetchAttendanceStep, hanyR]
  · simp [verifyAttendanceStep, fetchAttendanceStep, hanyR]
  · rfl
  · intro r hr
    have hatt : (verifyAttendanceStep true (some refetchRows) st2).1.attendance
        = refetchRows := by
      simp [verifyAttendanceStep, fetchAttendanceStep, hanyR]
    rw [hatt] at hr
    exact (h2 r hr).1

/-- Witness for C6: one fetched record with status "unset" and no persisted
id; after the Dashboard load it shows "present"; a successful verify with a
refetch carrying a persisted id marks the scope verified. -/
theorem c6_default_fill_witness :
    (∀ r ∈ (fetchAttendanceStepLogin (some ([⟨1, "unset", none⟩] : List AttendanceRow))
        (⟨[], false, none⟩ : AttState)).attendance, r.status = "present")
    ∧ (fetchAttendanceStepLogin (some ([⟨1, "unset", none⟩] : List AttendanceRow))
        (⟨[], false, none⟩ : AttState)).isVerified = false
    ∧ (fetchAttendanceStep (some ([⟨1, "unset", none⟩] : List AttendanceRow))
        (⟨[], false, none⟩ : AttState)).attendance
        = ([⟨1, "unset", none⟩] : List AttendanceRow).map (fun r =>
            { r with status := if r.status = "" then "present" else r.status })
    ∧ (verifyAttendanceStep true (some ([⟨1, "present", some 4⟩] : List AttendanceRow))
        (⟨[⟨1, "present", none⟩], false, none⟩ : AttState)).1.isVerified = true
    ∧ (verifyAttendanceStep true (some ([⟨1, "present", some 4⟩] : List AttendanceRow))
        (⟨[⟨1, "present", none⟩], false, none⟩ : AttState)).1.attendance
        = ([⟨1, "present", some 4⟩] : List AttendanceRow)
    ∧ (verifyAttendanceStep true (some ([⟨1, "present", some 4⟩] : List AttendanceRow))
        (⟨[⟨1, "present", none⟩], false, none⟩ : AttState)).2 = 1
    ∧ (∀ r ∈ (verifyAttendanceStep true
        (some ([⟨1, "present", some 4⟩] : List AttendanceRow))
        (⟨[⟨1, "present", none⟩], false, none⟩ : AttState)).1.attendance,
        r.record_id.isSome = true) :=
  c6_default_fill_amended ([⟨1, "unset", none⟩] : List AttendanceRow)
    (⟨[], false, none⟩ : AttState)
    ([⟨1, "present", some 4⟩] : List AttendanceRow)
    (⟨[⟨1, "present", none⟩], false, none⟩ : AttState)
    (by decide) (by decide) (by decide)

/-- Claim C6 counterexample: in the AttendanceManager implementation, loading
a scope with one record of status "unset" and no persisted record keeps the
local status "unset" — the falsy-only default fill does not turn it into
"present" as the claim requires. -/
theorem c6_default_fill_cex :
    (fetchAttendanceStep (some [⟨1, "unset", none⟩]) ⟨[], false, none⟩).attendance
      = [⟨1, "unset", none⟩] := by
  decide
